import Mathlib

/-!
Shallow embedding of the gesture-stabilization and sketch-classification
core of the drawVSAI-react repository, together with proofs settling the
frozen claims about it.

Sources embedded:
* `src/capturehands/useHandTracking.jsx` — landmark validity filter,
  landmark smoother, gesture hysteresis, hand-detection hysteresis, and
  the per-frame `detect` pipeline with its gesture classification rules.
* `src/drawVsAI.jsx` — the stability ("commit") buffer that publishes
  gesture/landmark state (lines 182–201).
* `src/capturehands/useDrawingClassifier.js` — sketch preprocessing,
  EMA probability smoothing, streak/scoring round engine.

Numeric pixel/probability values are modelled as rationals; JavaScript's
`Math.sqrt(d) < 50` comparison is modelled as the equivalent squared
comparison `d < 2500` (both sides nonnegative, squaring is monotone).
Mutable per-instance state becomes explicit state passing.
-/

namespace DrawVsAI

/-- A landmark point: (x, y, z) in frame pixel coordinates. -/
abbrev Point : Type := ℚ × ℚ × ℚ

/-- An ordered list of detected keypoints (21 for a real hand). -/
abbrev LandmarkSet : Type := List Point

/-- Gesture labels produced by `detect` in `useHandTracking.jsx`. -/
inductive Gesture : Type where
  | Idle
  | PointerUp
  | PinchClose
  | OpenHand
  | MultipleFingersUp
  deriving DecidableEq, Repr

/-- Index access `landmarks[i]`; the JS code only indexes sets that passed
the 21-point validity check, so the default is never reached there. -/
def pt (landmarks : LandmarkSet) (i : ℕ) : Point :=
  landmarks.getD i (0, 0, 0)

/-- `isFingerExtended` from useHandTracking.jsx line 10: the tip is above
(smaller y than) the MCP joint. -/
def isFingerExtended (landmarks : LandmarkSet) (tipIdx mcpIdx : ℕ) : Bool :=
  decide ((pt landmarks tipIdx).2.1 < (pt landmarks mcpIdx).2.1)

/-- `isValidHand` from useHandTracking.jsx lines 17–53.  The JS seeds the
bounding-box fold with ±Infinity; on the nonempty lists that reach the fold
this equals seeding with the first element, which is how it is written here. -/
def isValidHand (landmarks : Option LandmarkSet) (videoWidth videoHeight : ℚ) : Bool :=
  match landmarks with
  | none => false
  | some lms =>
    if lms.length < 21 then false
    else
      let h0 := lms.headD (0, 0, 0)
      let minX := lms.foldl (fun a p => min a p.1) h0.1
      let maxX := lms.foldl (fun a p => max a p.1) h0.1
      let minY := lms.foldl (fun a p => min a p.2.1) h0.2.1
      let maxY := lms.foldl (fun a p => max a p.2.1) h0.2.1
      let width := maxX - minX
      let height := maxY - minY
      if width < videoWidth * (2/100) ∨ height < videoHeight * (2/100) then false
      else if videoWidth * (9/10) < width ∨ videoHeight * (9/10) < height then false
      else if minX < -videoWidth * (3/10) ∨ videoWidth * (13/10) < maxX ∨
              minY < -videoHeight * (3/10) ∨ videoHeight * (13/10) < maxY then false
      else true

/-- Per-coordinate exponential blend used by `LandmarkSmoother.smooth`
(useHandTracking.jsx lines 76–80). -/
def blendPoint (f : ℚ) (prev lm : Point) : Point :=
  (prev.1 * (1 - f) + lm.1 * f,
   prev.2.1 * (1 - f) + lm.2.1 * f,
   prev.2.2 * (1 - f) + lm.2.2 * f)

/-- State of the `LandmarkSmoother` class (useHandTracking.jsx lines 58–90). -/
structure LandmarkSmoother : Type where
  smoothingFactor : ℚ
  smoothedLandmarks : Option LandmarkSet
  deriving DecidableEq, Repr

/-- `LandmarkSmoother.smooth`: null input passes through with no state
change; the first set after a reset is stored and returned unchanged;
later sets are blended coordinatewise against the stored state. -/
def LandmarkSmoother.smooth (s : LandmarkSmoother) (landmarks : Option LandmarkSet) :
    LandmarkSmoother × Option LandmarkSet :=
  match landmarks with
  | none => (s, none)
  | some lms =>
    match s.smoothedLandmarks with
    | none => ({ s with smoothedLandmarks := some lms }, some lms)
    | some prev =>
      let smoothed := List.zipWith (blendPoint s.smoothingFactor) prev lms
      ({ s with smoothedLandmarks := some smoothed }, some smoothed)

/-- `LandmarkSmoother.reset`. -/
def LandmarkSmoother.reset (s : LandmarkSmoother) : LandmarkSmoother :=
  { s with smoothedLandmarks := none }

/-- State of the `GestureHysteresis` class (useHandTracking.jsx lines 95–126);
`currentGesture` starts as null. -/
structure GestureHysteresis : Type where
  currentGesture : Option Gesture
  framesInGesture : ℕ
  stayFrames : ℕ
  deriving DecidableEq, Repr

/-- `GestureHysteresis.update` (lines 102–120): agreement resets the counter
and returns the held gesture; disagreement below the stay threshold only
bumps the counter; at the threshold the new gesture is accepted. -/
def GestureHysteresis.update (s : GestureHysteresis) (newGesture : Gesture) :
    GestureHysteresis × Option Gesture :=
  if some newGesture = s.currentGesture then
    ({ s with framesInGesture := 0 }, s.currentGesture)
  else if s.framesInGesture < s.stayFrames then
    ({ s with framesInGesture := s.framesInGesture + 1 }, s.currentGesture)
  else
    ({ s with currentGesture := some newGesture, framesInGesture := 0 }, some newGesture)

/-- `GestureHysteresis.reset`. -/
def GestureHysteresis.reset (s : GestureHysteresis) : GestureHysteresis :=
  { s with currentGesture := none, framesInGesture := 0 }

/-- Run the gesture hysteresis over a sequence of raw gestures, collecting
the returned (output) gesture of every update call. -/
def GestureHysteresis.run (s : GestureHysteresis) :
    List Gesture → GestureHysteresis × List (Option Gesture)
  | [] => (s, [])
  | g :: gs =>
    let p := s.update g
    let rest := p.1.run gs
    (rest.1, p.2 :: rest.2)

/-- Miss budget of `HandDetectionHysteresis` (useHandTracking.jsx line 138). -/
def maxMissedFrames : ℕ := 5

/-- State of the `HandDetectionHysteresis` class (lines 132–159).  The
`detectionThreshold`/`dropThreshold` constructor arguments are never read
by `update` and are omitted. -/
structure HandDetectionHysteresis : Type where
  isTracking : Bool
  framesWithoutDetection : ℕ
  deriving DecidableEq, Repr

/-- `HandDetectionHysteresis.update` (lines 141–153): a detection makes the
state tracking with a zeroed miss counter; a miss increments the counter and
drops tracking only once the counter exceeds the budget. -/
def HandDetectionHysteresis.update (s : HandDetectionHysteresis) (isHandDetected : Bool) :
    HandDetectionHysteresis :=
  if isHandDetected then ⟨true, 0⟩
  else
    let f := s.framesWithoutDetection + 1
    ⟨if maxMissedFrames < f then false else s.isTracking, f⟩

/-- `HandDetectionHysteresis.reset`. -/
def HandDetectionHysteresis.reset : HandDetectionHysteresis := ⟨false, 0⟩

/-- Run the detection hysteresis over a sequence of per-frame detection flags. -/
def HandDetectionHysteresis.runSeq (s : HandDetectionHysteresis) (xs : List Bool) :
    HandDetectionHysteresis :=
  xs.foldl HandDetectionHysteresis.update s

/-- Length of the run of consecutive `false` inputs at the end of a sequence. -/
def trailingFalseRun (xs : List Bool) : ℕ :=
  (xs.reverse.takeWhile (fun b => !b)).length

/-- Squared pixel distance between the thumb tip (point 4) and the index tip
(point 8); the JS compares `Math.sqrt(distance) < 50`, modelled here as the
squared comparison against 2500. -/
def tipDistanceSq (landmarks : LandmarkSet) : ℚ :=
  ((pt landmarks 8).1 - (pt landmarks 4).1) ^ 2 +
  ((pt landmarks 8).2.1 - (pt landmarks 4).2.1) ^ 2

/-- The raw gesture classification of `detect` (useHandTracking.jsx lines
244–274), a first-match-wins chain of finger-extension tests. -/
def rawGesture (landmarks : LandmarkSet) : Gesture :=
  let indexUp := isFingerExtended landmarks 8 5
  let middleUp := isFingerExtended landmarks 12 9
  let ringUp := isFingerExtended landmarks 16 13
  let pinkyUp := isFingerExtended landmarks 20 17
  let thumbUp := isFingerExtended landmarks 4 2
  let upCount := [indexUp, middleUp, ringUp, pinkyUp].count true
  if indexUp ∧ ¬middleUp ∧ ¬ringUp ∧ ¬pinkyUp then .PointerUp
  else if thumbUp ∧ indexUp ∧ ¬middleUp ∧ ¬ringUp ∧ ¬pinkyUp then
    (if tipDistanceSq landmarks < 2500 then .PinchClose else .PointerUp)
  else if indexUp ∧ middleUp ∧ ringUp ∧ pinkyUp then .OpenHand
  else if 1 < upCount then .MultipleFingersUp
  else .Idle

/-- The filter state owned by one tracking session (`useHandTracking`
constructs a smoother with factor 0.5, a detection hysteresis, and a
gesture hysteresis with stay threshold 3). -/
structure DetectState : Type where
  hysteresis : HandDetectionHysteresis
  smoother : LandmarkSmoother
  gestureHysteresis : GestureHysteresis
  deriving DecidableEq, Repr

/-- One frame of the `detect` pipeline (useHandTracking.jsx lines 213–284),
with the external handpose model's output abstracted as the optional raw
landmark set `hands`.  Returns the updated filter state and the
landmarks/gesture result (`none` models the JS `return null` paths). -/
def detectFrame (s : DetectState) (hands : Option LandmarkSet)
    (videoWidth videoHeight : ℚ) : DetectState × Option (LandmarkSet × Option Gesture) :=
  let hasDetection := hands.isSome
  let hyst1 := s.hysteresis.update hasDetection
  if ¬ hyst1.isTracking ∨ ¬ hasDetection then
    if ¬ hasDetection then
      ({ s with hysteresis := hyst1, smoother := s.smoother.reset }, none)
    else
      ({ s with hysteresis := hyst1 }, none)
  else
    match hands with
    | none => ({ s with hysteresis := hyst1 }, none)
    | some raw =>
      if ¬ isValidHand (some raw) videoWidth videoHeight then
        ({ s with hysteresis := HandDetectionHysteresis.reset,
                  smoother := s.smoother.reset }, none)
      else
        match s.smoother.smooth (some raw) with
        | (sm1, some smoothed) =>
          let g := rawGesture smoothed
          let gh := s.gestureHysteresis.update g
          ({ hysteresis := hyst1, smoother := sm1, gestureHysteresis := gh.1 },
           some (smoothed, gh.2))
        | (sm1, none) =>
          -- unreachable: `smooth` on a non-null input always returns a set
          ({ s with hysteresis := hyst1, smoother := sm1 }, none)

/-- Commit-buffer stability threshold (drawVsAI.jsx line 84). -/
def STABILITY_THRESHOLD : ℕ := 5

/-- Commit-buffer state of drawVsAI.jsx: the raw-gesture run-length tracker
(lines 79–80) together with the published `handData` (line 23). -/
structure CommitState : Type where
  lastRawGesture : Option Gesture
  stableCount : ℕ
  publishedLandmarks : Option LandmarkSet
  publishedGesture : Gesture
  deriving DecidableEq, Repr

/-- One frame of the stability-buffer logic (drawVsAI.jsx lines 182–201).
The returned flag records whether `setHandData` was invoked this frame. -/
def commitStep (s : CommitState) (raw : Gesture) (lm : Option LandmarkSet) :
    CommitState × Bool :=
  let s1 :=
    if some raw ≠ s.lastRawGesture then
      { s with lastRawGesture := some raw, stableCount := 1 }
    else
      { s with stableCount := s.stableCount + 1 }
  if STABILITY_THRESHOLD ≤ s1.stableCount then
    let gestureChanged := raw ≠ s1.publishedGesture
    let landmarksStatusChanged := s1.publishedLandmarks.isSome ≠ lm.isSome
    if gestureChanged ∨ landmarksStatusChanged then
      ({ s1 with publishedLandmarks := lm, publishedGesture := raw }, true)
    else
      (s1, false)
  else
    (s1, false)

/-- Run the commit buffer over a sequence of per-frame (gesture, landmarks)
inputs, collecting the publish flag of every frame. -/
def commitRun (s : CommitState) : List (Gesture × Option LandmarkSet) →
    CommitState × List Bool
  | [] => (s, [])
  | (g, lm) :: rest =>
    let p := commitStep s g lm
    let r := commitRun p.1 rest
    (r.1, p.2 :: r.2)

/-- Fallback category list of useDrawingClassifier.js (lines 4–9). -/
def CATEGORIES : List String :=
  ["apple", "banana", "bicycle", "butterfly", "cactus", "cake",
   "camera", "car", "chair", "cloud", "crab", "crown", "donut",
   "door", "eye", "flower", "house", "ice cream", "key",
   "lightning", "mountain", "pizza", "star"]

/-- EMA history weight (useDrawingClassifier.js line 14). -/
def EMA_ALPHA : ℚ := 8/10

/-- Scoring streak threshold (useDrawingClassifier.js line 28). -/
def STREAK_TO_SCORE : ℕ := 1

/-- The placeholder guess string shown before/without a classification. -/
def PLACEHOLDER_GUESS : String := "AI GUESSES: …"

/-- `norm` from useDrawingClassifier.js line 29: case-fold and trim.
Written over the string's character list (ASCII lowering, whitespace
stripped from both ends) so that concrete instances evaluate. -/
def normWord (s : String) : String :=
  String.mk ((((s.data.map Char.toLower).dropWhile Char.isWhitespace).reverse.dropWhile
      Char.isWhitespace).reverse)

/-- Round-engine state: the refs `targetWordRef`, `hasScoredRef`,
`correctStreakRef`, `emaRef` plus the `score`, `currentGuess` and
`correctGuess` React state of useDrawingClassifier.js. -/
structure RoundState : Type where
  targetWord : String
  score : ℕ
  correctStreak : ℕ
  hasScoredThisRound : Bool
  ema : Option (List ℚ)
  currentGuess : String
  correctGuess : Bool
  deriving DecidableEq, Repr

/-- `startRound` (lines 51–58) composed with `randomWord` (lines 42–49); the
uniformly random pick is abstracted as the parameter `picked`. -/
def startRound (picked : String) (s : RoundState) : RoundState :=
  { s with ema := none,
           correctStreak := 0,
           hasScoredThisRound := false,
           correctGuess := false,
           currentGuess := PLACEHOLDER_GUESS,
           targetWord := picked }

/-- The EMA update of `updateGuess` (lines 226–233): a missing or
length-mismatched EMA buffer is re-created as zeros, then every entry is
blended as `EMA_ALPHA * old + (1 - EMA_ALPHA) * new`. -/
def emaUpdate (ema : Option (List ℚ)) (probs : List ℚ) : List ℚ :=
  let e0 : List ℚ :=
    match ema with
    | some e => if e.length = probs.length then e else List.replicate probs.length 0
    | none => List.replicate probs.length 0
  List.zipWith (fun e p => EMA_ALPHA * e + (1 - EMA_ALPHA) * p) e0 probs

/-- Arg-max index scan of `updateGuess` (lines 235–238).  The JS loop starts
at index 1 with best index 0; starting the fold at index 0 is equivalent
because `e[0] > e[0]` never holds. -/
def bestIdx (e : List ℚ) : ℕ :=
  (List.range e.length).foldl
    (fun best i => if e.getD best 0 < e.getD i 0 then i else best) 0

/-- The guess/streak/score stage of one classification tick
(useDrawingClassifier.js lines 256–285): publish the guess label, compare
normalized guess and target, update the streak, and score at most once per
round under the `hasScoredRef` guard. -/
def streakUpdate (s : RoundState) (guessedWord : String) : RoundState :=
  let s1 := { s with currentGuess := "AI GUESSES: " ++ guessedWord }
  let streak := if normWord guessedWord = normWord s1.targetWord
    then s1.correctStreak + 1 else 0
  let s2 := { s1 with correctStreak := streak }
  if s2.hasScoredThisRound = false ∧ STREAK_TO_SCORE ≤ streak then
    { s2 with hasScoredThisRound := true, score := s2.score + 1, correctGuess := true }
  else
    s2

/-- One classification tick of `updateGuess` (lines 206–304).  The combined
preprocess-and-predict call is abstracted as `classifierResult`: an
exception, or the ink ratio together with the probability vector.  A caught
exception, like a sub-threshold ink ratio, only reverts the guess to the
placeholder. -/
def updateGuessTick (labels : List String) (s : RoundState)
    (classifierResult : Except String (ℚ × List ℚ)) : RoundState :=
  match classifierResult with
  | .error _ => { s with currentGuess := PLACEHOLDER_GUESS }
  | .ok (inkRatio, probs) =>
    if inkRatio < 1/100 then
      { s with currentGuess := PLACEHOLDER_GUESS }
    else
      let ema1 := emaUpdate s.ema probs
      let guessedWord := labels.getD (bestIdx ema1) "…"
      streakUpdate { s with ema := some ema1 } guessedWord

/-- One RGBA pixel with natural-number byte channels. -/
structure RGBA : Type where
  r : ℕ
  g : ℕ
  b : ℕ
  a : ℕ
  deriving DecidableEq, Repr

/-- The ink test of the bounding-box scan in `preprocessInput`
(useDrawingClassifier.js line 120): alpha above 20. -/
def hasInkPixel (raster : List RGBA) : Bool :=
  raster.any (fun p => decide (20 < p.a))

/-- The grayscale-invert step of the tensor conversion (lines 162–164):
average the colour channels and invert, so ink is high and background 0. -/
def pixelVal (p : RGBA) : ℚ :=
  1 - (((p.r : ℚ) + (p.g : ℚ) + (p.b : ℚ)) / 3) / 255

/-- The tensor-conversion loop of `preprocessInput` (lines 161–173):
grayscale-invert each rendered pixel, zero values at or below the 0.05
noise threshold, amplify the rest by 1.3 clamped to 1.0, and count the
amplified pixels as ink. -/
def convertPixels : List RGBA → List ℚ × ℕ
  | [] => ([], 0)
  | p :: ps =>
    let acc := convertPixels ps
    if 5/100 < pixelVal p then (min 1 (pixelVal p * (13/10)) :: acc.1, acc.2 + 1)
    else (0 :: acc.1, acc.2)

/-- A concrete 21-point landmark set with the thumb and index fingers
extended, the other three fingers folded, and the thumb/index tips 10px
apart — well inside the 50px pinch distance. -/
def pinchHand : LandmarkSet :=
  [(0, 100, 0), (0, 100, 0), (10, 50, 0), (0, 100, 0), (10, 10, 0),
   (0, 50, 0), (0, 100, 0), (0, 100, 0), (0, 10, 0), (0, 50, 0),
   (0, 100, 0), (0, 100, 0), (0, 100, 0), (0, 50, 0), (0, 100, 0),
   (0, 100, 0), (0, 100, 0), (0, 50, 0), (0, 100, 0), (0, 100, 0),
   (0, 100, 0)]

/-- `preprocessInput` (lines 108–198).  The canvas crop/rescale between the
bounding-box scan and the tensor conversion is an opaque browser call; its
28×28 readback is abstracted as the parameter `rendered`.  Returns the
flattened tensor and the ink ratio. -/
def preprocessInput (raster rendered : List RGBA) : List ℚ × ℚ :=
  if hasInkPixel raster = false then
    (List.replicate (28 * 28) 0, 0)
  else
    let c := convertPixels rendered
    (c.1, (c.2 : ℚ) / (28 * 28))

/-! ## Helper lemmas -/

theorem runSeq_append (s : HandDetectionHysteresis) (xs : List Bool) (b : Bool) :
    s.runSeq (xs ++ [b]) = (s.runSeq xs).update b := by
  simp [HandDetectionHysteresis.runSeq]

theorem trailingFalseRun_append_true (xs : List Bool) :
    trailingFalseRun (xs ++ [true]) = 0 := by
  simp [trailingFalseRun, List.takeWhile]

theorem trailingFalseRun_append_false (xs : List Bool) :
    trailingFalseRun (xs ++ [false]) = trailingFalseRun xs + 1 := by
  simp [trailingFalseRun, List.takeWhile]

/-! ## Claim theorems -/

/-- Claim C5: starting from the tracking state with the miss counter at 0,
the detection hysteresis keeps `isTracking` true exactly while the run of
consecutive misses at the end of the input stays within the 5-frame budget
(so it drops tracking on exactly the 6th consecutive miss), and any single
detection makes it tracking again with the miss counter reset to 0. -/
theorem detectionHysteresis_drops_after_six_c5 :
    (∀ xs : List Bool,
        HandDetectionHysteresis.runSeq ⟨true, 0⟩ xs
          = ⟨decide (trailingFalseRun xs ≤ maxMissedFrames), trailingFalseRun xs⟩)
    ∧ (∀ s : HandDetectionHysteresis, s.update true = ⟨true, 0⟩) := by
  constructor
  · intro xs
    induction xs using List.reverseRecOn with
    | nil => simp [HandDetectionHysteresis.runSeq, trailingFalseRun]
    | append_singleton xs b ih =>
      rw [runSeq_append, ih]
      cases b with
      | false =>
        rw [trailingFalseRun_append_false]
        simp only [HandDetectionHysteresis.update, maxMissedFrames]
        by_cases h5 : trailingFalseRun xs + 1 ≤ 5
        · have h1 : ¬ (5 < trailingFalseRun xs + 1) := by omega
          have h2 : trailingFalseRun xs ≤ 5 := by omega
          simp [h1, h2, h5]
        · have h1 : 5 < trailingFalseRun xs + 1 := by omega
          simp [h1, h5]
      | true =>
        rw [trailingFalseRun_append_true]
        simp [HandDetectionHysteresis.update]
  · intro s
    simp [HandDetectionHysteresis.update]

/-- Claim C9: a null landmark set, or one with fewer than 21 points, is
rejected by the validity filter whatever the frame dimensions are, and the
`detect` pipeline produces no landmarks/gesture result on such a frame, so
the fixed-index finger lookups never run on a short set. -/
theorem validity_filter_c9 :
    (∀ w h : ℚ, isValidHand none w h = false)
    ∧ (∀ (l : LandmarkSet) (w h : ℚ), l.length < 21 → isValidHand (some l) w h = false)
    ∧ (∀ (s : DetectState) (l : LandmarkSet) (w h : ℚ), l.length < 21 →
        (detectFrame s (some l) w h).2 = none)
    ∧ (∀ (s : DetectState) (w h : ℚ), (detectFrame s none w h).2 = none) := by
  refine ⟨fun w h => rfl, fun l w h hl => ?_, fun s l w h hl => ?_, fun s w h => ?_⟩
  · simp [isValidHand, hl]
  · simp [detectFrame, HandDetectionHysteresis.update, isValidHand, hl]
  · simp [detectFrame, HandDetectionHysteresis.update]

/-- Witness for C9 at a concrete empty landmark list and frame size. -/
theorem validity_filter_c9_witness :
    isValidHand (some []) 640 480 = false
    ∧ (detectFrame ⟨⟨false, 0⟩, ⟨1/2, none⟩, ⟨none, 0, 3⟩⟩ (some []) 640 480).2 = none :=
  ⟨validity_filter_c9.2.1 [] 640 480 (by decide),
   validity_filter_c9.2.2.1 ⟨⟨false, 0⟩, ⟨1/2, none⟩, ⟨none, 0, 3⟩⟩ [] 640 480 (by decide)⟩

/-- Claim C7: a classification tick whose classifier invocation throws only
reverts the displayed guess to the placeholder; the target word, score,
streak and scored-flag of the round are untouched, so later ticks continue
from the same round state. -/
theorem tick_error_degrades_c7 :
    ∀ (labels : List String) (s : RoundState) (e : String),
      (updateGuessTick labels s (.error e)).targetWord = s.targetWord
      ∧ (updateGuessTick labels s (.error e)).score = s.score
      ∧ (updateGuessTick labels s (.error e)).correctStreak = s.correctStreak
      ∧ (updateGuessTick labels s (.error e)).hasScoredThisRound = s.hasScoredThisRound
      ∧ (updateGuessTick labels s (.error e)).currentGuess = PLACEHOLDER_GUESS := by
  intro labels s e
  simp [updateGuessTick]

/-- Claim C3 counterexample: from held gesture `PointerUp` with the counter
at 0, three consecutive disagreeing `Idle` updates all return `PointerUp`;
the 3rd update does NOT return its own value as the claim states. -/
theorem gestureHysteresis_third_update_c3_cex :
    (GestureHysteresis.run ⟨some .PointerUp, 0, 3⟩ [.Idle, .Idle, .Idle]).2
      = [some .PointerUp, some .PointerUp, some .PointerUp]
    ∧ (GestureHysteresis.run ⟨some .PointerUp, 0, 3⟩ [.Idle, .Idle, .Idle]).2.getD 2 none
      ≠ some .Idle := by
  decide

/-- Claim C3 (amended): from held gesture G with the counter at 0, the
first three disagreeing updates still return G; exactly the 4th consecutive
disagreeing update returns its own value, which becomes the held gesture
with the counter reset. -/
theorem gestureHysteresis_fourth_update_c3 :
    ∀ (G g1 g2 g3 g4 : Gesture), g1 ≠ G → g2 ≠ G → g3 ≠ G → g4 ≠ G →
      (GestureHysteresis.run ⟨some G, 0, 3⟩ [g1, g2, g3, g4]).2
        = [some G, some G, some G, some g4]
      ∧ (GestureHysteresis.run ⟨some G, 0, 3⟩ [g1, g2, g3, g4]).1
        = ⟨some g4, 0, 3⟩ := by
  intro G g1 g2 g3 g4 h1 h2 h3 h4
  simp [GestureHysteresis.run, GestureHysteresis.update, h1, h2, h3, h4]

/-- Witness for the amended C3 with concrete gestures. -/
theorem gestureHysteresis_fourth_update_c3_witness :
    (GestureHysteresis.run ⟨some .Idle, 0, 3⟩
        [.PointerUp, .PointerUp, .PointerUp, .PointerUp]).2
      = [some .Idle, some .Idle, some .Idle, some .PointerUp]
    ∧ (GestureHysteresis.run ⟨some .Idle, 0, 3⟩
        [.PointerUp, .PointerUp, .PointerUp, .PointerUp]).1
      = ⟨some .PointerUp, 0, 3⟩ :=
  gestureHysteresis_fourth_update_c3 .Idle .PointerUp .PointerUp .PointerUp .PointerUp
    (by decide) (by decide) (by decide) (by decide)

/-- Claim C2 (code bug evidence): on a landmark set with the thumb and
index extended, the other fingers folded, and the tips 10px apart, the
classifier returns `PointerUp`, not `PinchClose`: the first rule
(`indexUp ∧ ¬middle ∧ ¬ring ∧ ¬pinky`) subsumes the pinch rule's guard, so
the `PinchClose` branch of the chain is unreachable. -/
theorem pinchClose_unreachable_c2 :
    isFingerExtended pinchHand 4 2 = true
    ∧ isFingerExtended pinchHand 8 5 = true
    ∧ isFingerExtended pinchHand 12 9 = false
    ∧ isFingerExtended pinchHand 16 13 = false
    ∧ isFingerExtended pinchHand 20 17 = false
    ∧ tipDistanceSq pinchHand < 2500
    ∧ rawGesture pinchHand = .PointerUp
    ∧ rawGesture pinchHand ≠ .PinchClose := by
  refine ⟨rfl, rfl, rfl, rfl, rfl, ?_, ?_, ?_⟩
  · norm_num [tipDistanceSq, pt, pinchHand]
  · rfl
  · decide

theorem zipWith_blend_replicate_zero (l : List ℚ) :
    List.zipWith (fun e p => EMA_ALPHA * e + (1 - EMA_ALPHA) * p)
      (List.replicate l.length 0) l
      = l.map (fun p => (1 - EMA_ALPHA) * p) := by
  induction l with
  | nil => rfl
  | cons x xs ih =>
    simp only [List.length_cons, List.replicate_succ, List.zipWith_cons_cons, List.map_cons]
    rw [show EMA_ALPHA * 0 + (1 - EMA_ALPHA) * x = (1 - EMA_ALPHA) * x by ring, ih]

/-- Claim C4 counterexample: with the EMA state cleared (round start) a
first probability vector `[1]` produces the EMA `[1/5]`, not `[1]` — the
first tick's EMA does not equal the first probability vector. -/
theorem ema_seed_c4_cex :
    emaUpdate none [1] = [1/5] ∧ ([1/5] : List ℚ) ≠ [1] := by
  constructor
  · show List.zipWith _ _ _ = _
    norm_num [EMA_ALPHA]
  · norm_num

/-- Claim C4 (amended): each round starts with the EMA state cleared; the
first tick re-creates it as a zero vector, so the first EMA equals 0.2
times the first probability vector (80% weight on the all-zero history),
and on later ticks with a matching length each entry is blended as
`0.8 * old + 0.2 * new`. -/
theorem ema_zero_seeded_c4 :
    (∀ (p : String) (s : RoundState), (startRound p s).ema = none)
    ∧ (∀ probs : List ℚ, emaUpdate none probs
        = probs.map (fun p => (1 - EMA_ALPHA) * p))
    ∧ (∀ (ema probs : List ℚ), ema.length = probs.length →
        emaUpdate (some ema) probs
          = List.zipWith (fun e p => EMA_ALPHA * e + (1 - EMA_ALPHA) * p) ema probs) := by
  refine ⟨fun p s => rfl, fun probs => ?_, fun ema probs h => ?_⟩
  · show List.zipWith _ _ _ = _
    exact zipWith_blend_replicate_zero probs
  · simp [emaUpdate, h]

/-- Witness for the amended C4 at a concrete EMA state and probability
vector. -/
theorem ema_zero_seeded_c4_witness :
    emaUpdate (some [(1:ℚ)/2]) [1]
      = List.zipWith (fun e p => EMA_ALPHA * e + (1 - EMA_ALPHA) * p) [(1:ℚ)/2] [1] :=
  ema_zero_seeded_c4.2.2 [(1:ℚ)/2] [1] (by decide)

theorem zipWith_get?_eq {α β γ : Type} (f : α → β → γ) :
    ∀ (l1 : List α) (l2 : List β) (i : ℕ) (a : α) (b : β),
      l1.get? i = some a → l2.get? i = some b →
      (List.zipWith f l1 l2).get? i = some (f a b) := by
  intro l1
  induction l1 with
  | nil => intro l2 i a b h1 _; simp at h1
  | cons x xs ih =>
    intro l2 i a b h1 h2
    cases l2 with
    | nil => simp at h2
    | cons y ys =>
      cases i with
      | zero =>
        simp only [List.get?_cons_zero, Option.some.injEq] at h1 h2
        simp [h1, h2]
      | succ n =>
        simp only [List.get?_cons_succ] at h1 h2 ⊢
        exact ih ys n a b h1 h2

/-- Claim C8: the smoother passes the first landmark set after a reset
through unchanged and stores it, and on a later call with stored state and
α = 0.5 every coordinate of every one of the 21 returned points equals
`previous * (1 - 0.5) + raw * 0.5`. -/
theorem smoother_first_passthrough_then_blend_c8 :
    (∀ (f : ℚ) (lms : LandmarkSet),
        LandmarkSmoother.smooth ⟨f, none⟩ (some lms) = (⟨f, some lms⟩, some lms))
    ∧ (∀ (prev raw : LandmarkSet), prev.length = 21 → raw.length = 21 →
        ∃ out : LandmarkSet,
          LandmarkSmoother.smooth ⟨1/2, some prev⟩ (some raw) = (⟨1/2, some out⟩, some out)
          ∧ out.length = 21
          ∧ ∀ (i : ℕ) (p q : Point), prev.get? i = some p → raw.get? i = some q →
              out.get? i = some (p.1 * (1 - 1/2) + q.1 * (1/2),
                                 p.2.1 * (1 - 1/2) + q.2.1 * (1/2),
                                 p.2.2 * (1 - 1/2) + q.2.2 * (1/2))) := by
  constructor
  · intro f lms
    rfl
  · intro prev raw hp hr
    refine ⟨List.zipWith (blendPoint (1/2)) prev raw, rfl, ?_, ?_⟩
    · rw [List.length_zipWith, hp, hr, min_self]
    · intro i p q hp' hq'
      rw [zipWith_get?_eq (blendPoint (1/2)) prev raw i p q hp' hq']
      rfl

/-- Witness for C8 at two concrete 21-point landmark sets. -/
theorem smoother_first_passthrough_then_blend_c8_witness :
    ∃ out : LandmarkSet,
      LandmarkSmoother.smooth
          ⟨1/2, some (List.replicate 21 ((0:ℚ), (0:ℚ), (0:ℚ)))⟩
          (some (List.replicate 21 ((1:ℚ), (1:ℚ), (1:ℚ))))
        = (⟨1/2, some out⟩, some out)
      ∧ out.length = 21
      ∧ ∀ (i : ℕ) (p q : Point),
          (List.replicate 21 ((0:ℚ), (0:ℚ), (0:ℚ))).get? i = some p →
          (List.replicate 21 ((1:ℚ), (1:ℚ), (1:ℚ))).get? i = some q →
          out.get? i = some (p.1 * (1 - 1/2) + q.1 * (1/2),
                             p.2.1 * (1 - 1/2) + q.2.1 * (1/2),
                             p.2.2 * (1 - 1/2) + q.2.2 * (1/2)) :=
  smoother_first_passthrough_then_blend_c8.2
    (List.replicate 21 ((0:ℚ), (0:ℚ), (0:ℚ)))
    (List.replicate 21 ((1:ℚ), (1:ℚ), (1:ℚ)))
    (by simp) (by simp)

theorem streakUpdate_wrong (s : RoundState) (w : String)
    (hw : normWord w ≠ normWord s.targetWord) :
    streakUpdate s w
      = { s with currentGuess := "AI GUESSES: " ++ w, correctStreak := 0 } := by
  simp [streakUpdate, hw, STREAK_TO_SCORE]

theorem streakUpdate_right (s : RoundState) (w : String)
    (hw : normWord w = normWord s.targetWord) (hs : s.hasScoredThisRound = false) :
    streakUpdate s w
      = { s with currentGuess := "AI GUESSES: " ++ w,
                 correctStreak := s.correctStreak + 1,
                 hasScoredThisRound := true,
                 score := s.score + 1,
                 correctGuess := true } := by
  have h1 : STREAK_TO_SCORE ≤ s.correctStreak + 1 := Nat.le_add_left 1 s.correctStreak
  simp [streakUpdate, hw, hs, h1]

theorem streakUpdate_scored_stays (s : RoundState) (w : String)
    (hs : s.hasScoredThisRound = true) :
    (streakUpdate s w).score = s.score
    ∧ (streakUpdate s w).hasScoredThisRound = true := by
  simp [streakUpdate, hs]

theorem foldl_streakUpdate_scored (ws : List String) :
    ∀ s : RoundState, s.hasScoredThisRound = true →
      (ws.foldl streakUpdate s).score = s.score := by
  induction ws with
  | nil => intro s _; rfl
  | cons w ws ih =>
    intro s hs
    have h := streakUpdate_scored_stays s w hs
    simp only [List.foldl_cons]
    rw [ih (streakUpdate s w) h.2, h.1]

/-- Claim C6: with the streak threshold at 1, a round whose guess ticks are
[wrong, wrong, target] increments the score exactly once, on the 3rd tick,
and once `hasScoredThisRound` is set every later matching tick of the same
round leaves the score unchanged. -/
theorem round_scores_once_c6 :
    ∀ (s0 : RoundState) (w1 w2 w3 : String),
      s0.hasScoredThisRound = false →
      normWord w1 ≠ normWord s0.targetWord →
      normWord w2 ≠ normWord s0.targetWord →
      normWord w3 = normWord s0.targetWord →
      (streakUpdate s0 w1).score = s0.score
      ∧ (streakUpdate (streakUpdate s0 w1) w2).score = s0.score
      ∧ (streakUpdate (streakUpdate (streakUpdate s0 w1) w2) w3).score = s0.score + 1
      ∧ (streakUpdate (streakUpdate (streakUpdate s0 w1) w2) w3).hasScoredThisRound = true
      ∧ ∀ ws : List String, (∀ w ∈ ws, normWord w = normWord s0.targetWord) →
          (ws.foldl streakUpdate
              (streakUpdate (streakUpdate (streakUpdate s0 w1) w2) w3)).score
            = s0.score + 1 := by
  intro s0 w1 w2 w3 hs0 h1 h2 h3
  have e1 := streakUpdate_wrong s0 w1 h1
  have e2 : streakUpdate (streakUpdate s0 w1) w2
      = { streakUpdate s0 w1 with currentGuess := "AI GUESSES: " ++ w2,
                                  correctStreak := 0 } := by
    refine streakUpdate_wrong _ w2 ?_
    rw [e1]
    exact h2
  have e3 := streakUpdate_right (streakUpdate (streakUpdate s0 w1) w2) w3
    (by rw [e2, e1]; exact h3) (by rw [e2, e1]; exact hs0)
  refine ⟨by rw [e1], by rw [e2, e1], ?_, ?_, ?_⟩
  · rw [e3, e2, e1]
  · rw [e3]
  · intro ws _hws
    rw [foldl_streakUpdate_scored ws _ (by rw [e3])]
    rw [e3, e2, e1]

/-- Witness for C6 at a concrete round state and guesses. -/
theorem round_scores_once_c6_witness :
    (streakUpdate ⟨"star", 0, 0, false, none, PLACEHOLDER_GUESS, false⟩ "apple").score = 0
    ∧ (streakUpdate (streakUpdate ⟨"star", 0, 0, false, none, PLACEHOLDER_GUESS, false⟩
          "apple") "car").score = 0
    ∧ (streakUpdate (streakUpdate (streakUpdate
          ⟨"star", 0, 0, false, none, PLACEHOLDER_GUESS, false⟩
          "apple") "car") "star").score = 0 + 1
    ∧ (streakUpdate (streakUpdate (streakUpdate
          ⟨"star", 0, 0, false, none, PLACEHOLDER_GUESS, false⟩
          "apple") "car") "star").hasScoredThisRound = true
    ∧ (["star"].foldl streakUpdate
          (streakUpdate (streakUpdate (streakUpdate
            ⟨"star", 0, 0, false, none, PLACEHOLDER_GUESS, false⟩
            "apple") "car") "star")).score = 0 + 1 := by
  have h := round_scores_once_c6 ⟨"star", 0, 0, false, none, PLACEHOLDER_GUESS, false⟩
    "apple" "car" "star" rfl (by decide) (by decide) rfl
  refine ⟨h.1, h.2.1, h.2.2.1, h.2.2.2.1, h.2.2.2.2 ["star"] ?_⟩
  intro w hw
  simp only [List.mem_singleton] at hw
  rw [hw]

theorem convertPixels_mem (l : List RGBA) :
    ∀ v ∈ (convertPixels l).1, 0 ≤ v ∧ v ≤ 1 := by
  induction l with
  | nil => intro v hv; simp [convertPixels] at hv
  | cons p ps ih =>
    intro v hv
    rw [convertPixels] at hv
    by_cases hc : (5:ℚ)/100 < pixelVal p
    · rw [if_pos hc] at hv
      rcases List.mem_cons.mp hv with h | h
      · subst h
        refine ⟨le_min (by norm_num) ?_, min_le_left _ _⟩
        have hval : (0:ℚ) ≤ pixelVal p := by linarith
        positivity
      · exact ih v h
    · rw [if_neg hc] at hv
      rcases List.mem_cons.mp hv with h | h
      · subst h
        exact ⟨le_refl 0, by norm_num⟩
      · exact ih v h

theorem convertPixels_count_le (l : List RGBA) : (convertPixels l).2 ≤ l.length := by
  induction l with
  | nil => simp [convertPixels]
  | cons p ps ih =>
    rw [convertPixels]
    by_cases hc : (5:ℚ)/100 < pixelVal p
    · rw [if_pos hc]
      simpa using Nat.succ_le_succ ih
    · rw [if_neg hc]
      simp only [List.length_cons]
      exact le_trans ih (Nat.le_succ _)

/-- Claim C10: for every input raster (and every 784-pixel rendered crop)
the preprocessor's output tensor has all entries in [0, 1], and the
returned ink ratio — the count of qualifying output pixels over the 784
output pixels — lies in [0, 1]. -/
theorem preprocess_bounds_c10 :
    ∀ (raster rendered : List RGBA), rendered.length = 28 * 28 →
      (∀ v ∈ (preprocessInput raster rendered).1, 0 ≤ v ∧ v ≤ 1)
      ∧ 0 ≤ (preprocessInput raster rendered).2
      ∧ (preprocessInput raster rendered).2 ≤ 1 := by
  intro raster rendered hlen
  by_cases hink : hasInkPixel raster = false
  · have hpre : preprocessInput raster rendered = (List.replicate (28 * 28) 0, 0) := by
      rw [preprocessInput, if_pos hink]
    rw [hpre]
    refine ⟨fun v hv => ?_, le_refl 0, by norm_num⟩
    have hv0 : v = 0 := List.eq_of_mem_replicate hv
    rw [hv0]
    exact ⟨le_refl 0, by norm_num⟩
  · have hpre : preprocessInput raster rendered
        = ((convertPixels rendered).1, ((convertPixels rendered).2 : ℚ) / (28 * 28)) := by
      rw [preprocessInput, if_neg hink]
    rw [hpre]
    refine ⟨fun v hv => convertPixels_mem rendered v hv, ?_, ?_⟩
    · exact div_nonneg (Nat.cast_nonneg _) (by norm_num)
    · rw [div_le_one (by norm_num)]
      have h1 : ((convertPixels rendered).2 : ℚ) ≤ (rendered.length : ℚ) :=
        Nat.cast_le.mpr (convertPixels_count_le rendered)
      rw [hlen] at h1
      push_cast at h1 ⊢
      linarith

/-- Witness for C10 at a one-pixel raster and an all-black rendered crop. -/
theorem preprocess_bounds_c10_witness :
    (∀ v ∈ (preprocessInput [⟨0, 0, 0, 255⟩]
        (List.replicate (28 * 28) ⟨0, 0, 0, 255⟩)).1, 0 ≤ v ∧ v ≤ 1)
    ∧ 0 ≤ (preprocessInput [⟨0, 0, 0, 255⟩]
        (List.replicate (28 * 28) ⟨0, 0, 0, 255⟩)).2
    ∧ (preprocessInput [⟨0, 0, 0, 255⟩]
        (List.replicate (28 * 28) ⟨0, 0, 0, 255⟩)).2 ≤ 1 :=
  preprocess_bounds_c10 [⟨0, 0, 0, 255⟩] (List.replicate (28 * 28) ⟨0, 0, 0, 255⟩)
    (by rw [List.length_replicate])

theorem commitRun_stable (G : Gesture) (L : Option LandmarkSet) (cst : Bool)
    (hL : L.isSome = cst) :
    ∀ (rest : List (Option LandmarkSet)) (k : ℕ), 4 ≤ k →
      (∀ lm ∈ rest, lm.isSome = cst) →
      commitRun ⟨some G, k, L, G⟩ (rest.map (fun lm => (G, lm)))
        = (⟨some G, k + rest.length, L, G⟩, List.replicate rest.length false) := by
  intro rest
  induction rest with
  | nil => intro k _ _; simp [commitRun]
  | cons lm rest ih =>
    intro k hk hall
    have hlm : lm.isSome = cst := hall lm (List.mem_cons_self lm rest)
    have hrest : ∀ x ∈ rest, x.isSome = cst :=
      fun x hx => hall x (List.mem_cons_of_mem lm hx)
    have h5 : STABILITY_THRESHOLD ≤ k + 1 := by
      simp only [STABILITY_THRESHOLD]
      omega
    have hstep : commitStep ⟨some G, k, L, G⟩ G lm = (⟨some G, k + 1, L, G⟩, false) := by
      simp [commitStep, h5, hL, hlm]
    simp only [List.map_cons, commitRun, hstep]
    rw [ih (k + 1) (by omega) hrest]
    simp only [List.length_cons, List.replicate_succ, Prod.mk.injEq,
      CommitState.mk.injEq, true_and, and_true]
    omega

/-- Claim C1: from any commit-buffer state whose last raw gesture and
published gesture both differ from G, a run of at least 5 frames carrying
gesture G (with a fixed landmark-presence) publishes exactly once — on the
5th frame, not before and not on any later frame — and the published state
then holds G with the 5th frame's landmarks. -/
theorem commitBuffer_publishes_once_c1 :
    ∀ (G : Gesture) (cst : Bool) (s0 : CommitState) (lms : List (Option LandmarkSet)),
      5 ≤ lms.length →
      (∀ lm ∈ lms, lm.isSome = cst) →
      s0.lastRawGesture ≠ some G →
      s0.publishedGesture ≠ G →
      (commitRun s0 (lms.map (fun lm => (G, lm)))).2
        = List.replicate 4 false ++ true :: List.replicate (lms.length - 5) false
      ∧ (commitRun s0 (lms.map (fun lm => (G, lm)))).1.publishedGesture = G
      ∧ (commitRun s0 (lms.map (fun lm => (G, lm)))).1.publishedLandmarks
          = lms.getD 4 none := by
  intro G cst s0 lms h5 hall hraw hpub
  obtain ⟨lr0, sc0, pl0, pg0⟩ := s0
  rcases lms with _ | ⟨l1, lms⟩
  · simp at h5
  rcases lms with _ | ⟨l2, lms⟩
  · simp at h5
  rcases lms with _ | ⟨l3, lms⟩
  · simp at h5
  rcases lms with _ | ⟨l4, lms⟩
  · simp at h5
  rcases lms with _ | ⟨l5, rest⟩
  · simp at h5
  have hlm5 : l5.isSome = cst := hall l5 (by simp)
  have hrest : ∀ x ∈ rest, x.isSome = cst := fun x hx => hall x (by simp [hx])
  have hs1 : commitStep ⟨lr0, sc0, pl0, pg0⟩ G l1 = (⟨some G, 1, pl0, pg0⟩, false) := by
    simp [commitStep, Ne.symm hraw, STABILITY_THRESHOLD]
  have hs2 : commitStep ⟨some G, 1, pl0, pg0⟩ G l2 = (⟨some G, 2, pl0, pg0⟩, false) := by
    simp [commitStep, STABILITY_THRESHOLD]
  have hs3 : commitStep ⟨some G, 2, pl0, pg0⟩ G l3 = (⟨some G, 3, pl0, pg0⟩, false) := by
    simp [commitStep, STABILITY_THRESHOLD]
  have hs4 : commitStep ⟨some G, 3, pl0, pg0⟩ G l4 = (⟨some G, 4, pl0, pg0⟩, false) := by
    simp [commitStep, STABILITY_THRESHOLD]
  have hs5 : commitStep ⟨some G, 4, pl0, pg0⟩ G l5 = (⟨some G, 5, l5, G⟩, true) := by
    simp [commitStep, STABILITY_THRESHOLD, Ne.symm hpub]
  have hrun : commitRun ⟨lr0, sc0, pl0, pg0⟩
      ((l1 :: l2 :: l3 :: l4 :: l5 :: rest).map (fun lm => (G, lm)))
      = (⟨some G, 5 + rest.length, l5, G⟩,
         false :: false :: false :: false :: true :: List.replicate rest.length false) := by
    simp only [List.map_cons, commitRun, hs1, hs2, hs3, hs4, hs5]
    rw [commitRun_stable G l5 cst hlm5 rest 5 (by omega) hrest]
  refine ⟨?_, ?_, ?_⟩
  · rw [hrun]
    simp [List.replicate_succ]
  · rw [hrun]
  · rw [hrun]
    simp [List.getD]

/-- Witness for C1: seven frames of `PointerUp` with present landmarks from
the initial commit state publish exactly on the 5th frame. -/
theorem commitBuffer_publishes_once_c1_witness :
    (commitRun ⟨none, 0, none, .Idle⟩
        ((List.replicate 7 (some ([] : LandmarkSet))).map
          (fun lm => (Gesture.PointerUp, lm)))).2
      = List.replicate 4 false
        ++ true :: List.replicate ((List.replicate 7 (some ([] : LandmarkSet))).length - 5) false
    ∧ (commitRun ⟨none, 0, none, .Idle⟩
        ((List.replicate 7 (some ([] : LandmarkSet))).map
          (fun lm => (Gesture.PointerUp, lm)))).1.publishedGesture = .PointerUp
    ∧ (commitRun ⟨none, 0, none, .Idle⟩
        ((List.replicate 7 (some ([] : LandmarkSet))).map
          (fun lm => (Gesture.PointerUp, lm)))).1.publishedLandmarks
      = (List.replicate 7 (some ([] : LandmarkSet))).getD 4 none :=
  commitBuffer_publishes_once_c1 .PointerUp true ⟨none, 0, none, .Idle⟩
    (List.replicate 7 (some ([] : LandmarkSet)))
    (by simp)
    (fun lm hlm => by rw [List.eq_of_mem_replicate hlm]; rfl)
    (by simp)
    (by simp)

end DrawVsAI
